import Mathlib

/-!
Verification of the avatar-view module of askbot (askbot/views/avatar_views.py)
against its design specification.

The module manages a user's avatar listing: zero or more uploaded avatars plus
one virtual gravatar entry and one virtual default entry.  The embedding below
translates the Python source into Lean: dictionaries become structures, the
one-character avatar_type flag stays a character ('a' uploaded, 'g' gravatar,
'n' default), the three avatar_type tag strings of the listing dictionaries
become an enumeration, and the URL-producing collaborators (the avatar storage
application, the gravatar service and the default-avatar service, all external
to the module) are passed in as an environment of functions.

The Python runtime is the version-2 semantics the source is written for:
filter and map are eager and return lists, list.remove removes the first
element equal to its argument, and attribute access on a dictionary raises
AttributeError.  Fallible computations are embedded as Except values.
-/

/-- The avatar_type tag strings of the listing dictionaries
('uploaded_avatar', 'gravatar', 'default_avatar'), embedded as an
enumeration of the three distinct constants. -/
inductive AvatarKind where
  | uploaded_avatar
  | gravatar
  | default_avatar
deriving DecidableEq

/-- Runtime errors of the embedded Python fragments.  The only one the module
can actually raise inside get_avatar_data is AttributeError, from the
expression v.type applied to a dictionary v. -/
inductive PyError where
  | attributeError
deriving DecidableEq

/-- One element of the avatar_data listing: the dictionary with keys id
(absent for the gravatar and default entries), avatar_type, url and
is_primary built by get_avatar_data. -/
structure AvatarDatum where
  id : Option Nat
  avatar_type : AvatarKind
  url : String
  is_primary : Bool
deriving DecidableEq

/-- An uploaded avatar row (the avatar application's Avatar model, as seen by
this module): its primary key and its primary flag. -/
structure UploadedAvatar where
  id : Nat
  primary : Bool
deriving DecidableEq

/-- The user state the module reads and mutates: the user's primary key, the
one-character avatar_type flag ('a' uploaded, 'g' gravatar, 'n' default) and
the user's uploaded avatars in storage order (user.avatar_set.all()). -/
structure AvatarUser where
  id : Nat
  avatar_type : Char
  avatar_set : List UploadedAvatar
deriving DecidableEq

/-- The URL-producing collaborators used by get_avatar_data, all external to
the module: avatar.avatar_url(size), user.get_gravatar_url(size) and
user.get_default_avatar_url(size).  Arguments are the avatar id (respectively
the user id) and the requested pixel size. -/
structure AvatarEnv where
  avatarUrl : Nat → Nat → String
  gravatarUrl : Nat → Nat → String
  defaultAvatarUrl : Nat → Nat → String

/-- The listing dictionary built for one uploaded avatar
(get_avatar_data, loop body). -/
def uploadedDatum (env : AvatarEnv) (avatar_size : Nat) (avatar : UploadedAvatar) : AvatarDatum :=
  { id := some avatar.id
    avatar_type := AvatarKind.uploaded_avatar
    url := env.avatarUrl avatar.id avatar_size
    is_primary := avatar.primary }

/-- The gravatar listing dictionary (get_avatar_data): primary exactly when
the user's avatar_type flag is 'g'. -/
def gravatarDatum (env : AvatarEnv) (user : AvatarUser) (avatar_size : Nat) : AvatarDatum :=
  { id := none
    avatar_type := AvatarKind.gravatar
    url := env.gravatarUrl user.id avatar_size
    is_primary := (user.avatar_type == 'g') }

/-- The default-avatar listing dictionary (get_avatar_data): primary exactly
when the user's avatar_type flag is 'n'. -/
def defaultDatum (env : AvatarEnv) (user : AvatarUser) (avatar_size : Nat) : AvatarDatum :=
  { id := none
    avatar_type := AvatarKind.default_avatar
    url := env.defaultAvatarUrl user.id avatar_size
    is_primary := (user.avatar_type == 'n') }

/-- The candidate-building phase of get_avatar_data: start from the empty
list, append one dictionary per uploaded avatar in storage order, then append
the gravatar dictionary, then the default-avatar dictionary. -/
def buildAvatarData (env : AvatarEnv) (user : AvatarUser) (avatar_size : Nat) : List AvatarDatum :=
  let avatar_data : List AvatarDatum := []
  let avatar_data := user.avatar_set.foldl
    (fun acc avatar => acc ++ [uploadedDatum env avatar_size avatar]) avatar_data
  let avatar_data := avatar_data ++ [gravatarDatum env user avatar_size]
  avatar_data ++ [defaultDatum env user avatar_size]

/-- The normalization phase of get_avatar_data (source lines 65 to 88).
First filter the primary entries.  When more than one entry is primary the
source evaluates filter(lambda v: v.type == 'gravatar', primary_avatars),
and v.type on a dictionary raises AttributeError, so that branch is an error.
Otherwise the first primary entry, when one exists, is removed
(list.remove: first element equal to it) and reinserted at position 0. -/
def normalizeAvatarData (avatar_data : List AvatarDatum) : Except PyError (List AvatarDatum) :=
  let primary_avatars := avatar_data.filter (fun v => v.is_primary)
  if primary_avatars.length > 1 then
    Except.error PyError.attributeError
  else
    match avatar_data.filter (fun v => v.is_primary) with
    | [] => Except.ok avatar_data
    | p :: _ => Except.ok (p :: avatar_data.erase p)

/-- get_avatar_data: build the candidate listing, normalize it, and pair the
result with bool(avatars.count()), true exactly when the user has at least
one uploaded avatar. -/
def get_avatar_data (env : AvatarEnv) (user : AvatarUser) (avatar_size : Nat) :
    Except PyError (List AvatarDatum × Bool) := do
  let avatar_data ← normalizeAvatarData (buildAvatarData env user avatar_size)
  pure (avatar_data, user.avatar_set.length != 0)

deriving instance DecidableEq for Except

/-- Number of entries of a listing flagged primary. -/
def countPrimary (l : List AvatarDatum) : Nat :=
  (l.filter (fun v => v.is_primary)).length

/-- A concrete environment for evaluating the embedding on closed inputs:
every collaborator returns the empty URL. -/
def envW : AvatarEnv :=
  { avatarUrl := fun _ _ => ""
    gravatarUrl := fun _ _ => ""
    defaultAvatarUrl := fun _ _ => "" }

/-- Result of a view call, as far as the avatar module is concerned: either a
redirect to the login flow (django.contrib.auth) or the redirect to the
avatar listing page issued by redirect_to_show_list. -/
inductive HttpResult where
  | redirectLogin
  | redirectShowList (user_id : Nat)
deriving DecidableEq

/-- The fields of the incoming request the module consults:
request.user.is_authenticated(), request.user.is_administrator(),
request.user.is_administrator_or_moderator(), request.user.id, whether
request.method is POST, and the uploaded-avatar choice carried in the POST
data of set_primary (none when the 'choice' key is absent). -/
structure Request where
  is_authenticated : Bool
  is_admin : Bool
  is_admin_or_moderator : Bool
  user_id : Nat
  method_post : Bool
  choice : Option Nat
deriving DecidableEq

/-- A view over the per-user avatar state: it receives the request, the
user_id captured from the URL and the state of the user that id resolves to,
and returns the new state together with the HTTP result. -/
def AvatarView : Type :=
  Request → Nat → AvatarUser → AvatarUser × HttpResult

/-- Django's login_required decorator, an external collaborator of the
module, modelled by its documented contract: run the view when the
requesting user is authenticated, otherwise redirect to the login flow
without running it. -/
def login_required (func : AvatarView) : AvatarView :=
  fun request user_id user =>
    if request.is_authenticated then func request user_id user
    else (user, HttpResult.redirectLogin)

/-- The admin_or_owner_required decorator (source lines 12 to 22): when the
caller is authenticated and is an administrator or the account owner, run the
view; in every other case delegate to login_required applied to the view. -/
def admin_or_owner_required (func : AvatarView) : AvatarView :=
  fun request user_id user =>
    if request.is_authenticated then
      if request.is_admin || request.user_id == user_id then
        func request user_id user
      else
        login_required func request user_id user
    else
      login_required func request user_id user

/-- Modelled from the spec: the effects triggered by set_primary after it
assigns avatar.primary = True live outside this module's source file —
Avatar.save in the avatar application demotes the user's other uploaded
avatars, and the avatar_updated signal handlers in askbot.models set the
user's avatar_type flag to uploaded. Per the spec's selectPrimary row: set
avatarType = uploaded, set the chosen avatar's primary = true, all other
uploaded avatars of the user primary = false. -/
def saveAvatarAsPrimary (user : AvatarUser) (choice : Nat) : AvatarUser :=
  { user with
    avatar_type := 'a'
    avatar_set := user.avatar_set.map
      (fun a => if a.id == choice then { a with primary := true }
                else { a with primary := false }) }

/-- The set_primary view body (source lines 116 to 132): on POST with a
'choice' key whose value the PrimaryAvatarForm validates against the user's
own avatar set, mark the chosen avatar primary and save it (with the
attendant effects of saveAvatarAsPrimary); in every case redirect to the
listing. -/
def set_primary_view : AvatarView :=
  fun request user_id user =>
    if request.method_post then
      match request.choice with
      | some c =>
        if user.avatar_set.any (fun a => a.id == c) then
          (saveAvatarAsPrimary user c, HttpResult.redirectShowList user_id)
        else
          (user, HttpResult.redirectShowList user_id)
      | none => (user, HttpResult.redirectShowList user_id)
    else (user, HttpResult.redirectShowList user_id)

/-- The enable_gravatar view body (source lines 171 to 177): on POST set the
user's avatar_type flag to 'g', then user.avatar_set.update(primary=False);
in every case redirect to the listing. -/
def enable_gravatar_view : AvatarView :=
  fun request user_id user =>
    if request.method_post then
      ({ user with
         avatar_type := 'g'
         avatar_set := user.avatar_set.map (fun a => { a with primary := false }) },
       HttpResult.redirectShowList user_id)
    else (user, HttpResult.redirectShowList user_id)

/-- The enable_default_avatar view body (source lines 181 to 187): on POST
set the user's avatar_type flag to 'n', then
user.avatar_set.update(primary=False); in every case redirect to the
listing. -/
def enable_default_avatar_view : AvatarView :=
  fun request user_id user =>
    if request.method_post then
      ({ user with
         avatar_type := 'n'
         avatar_set := user.avatar_set.map (fun a => { a with primary := false }) },
       HttpResult.redirectShowList user_id)
    else (user, HttpResult.redirectShowList user_id)

/-- The delete view (source lines 153 to 167), acting on the state of the
avatar's owner.  Authorization is inline: POST, authenticated, and
administrator-or-moderator or owner.  When authorized: capture the owner's
avatar_type, delete the avatar row — deletion may fire signal handlers
outside this module that rewrite the owner's avatar_type, abstracted here as
the function hook — write the captured avatar_type back, and when the
captured flag was 'g' clear the primary flag on all remaining uploaded
avatars.  Always redirect to the owner's listing. -/
def delete_view (hook : Char → Char) (request : Request) (avatar_id : Nat)
    (user : AvatarUser) : AvatarUser × HttpResult :=
  if request.method_post && request.is_authenticated &&
      (request.is_admin_or_moderator || user.id == request.user_id) then
    let avatar_type := user.avatar_type
    let user1 : AvatarUser :=
      { user with
        avatar_set := user.avatar_set.filter (fun a => a.id != avatar_id)
        avatar_type := hook user.avatar_type }
    let user2 : AvatarUser := { user1 with avatar_type := avatar_type }
    let user3 : AvatarUser :=
      if avatar_type == 'g' then
        { user2 with avatar_set := user2.avatar_set.map (fun a => { a with primary := false }) }
      else user2
    (user3, HttpResult.redirectShowList user.id)
  else
    (user, HttpResult.redirectShowList user.id)

/-- A user on the uploaded-avatar setting with no uploaded avatars: the
listing computation succeeds and yields no primary entry. -/
def userC1 : AvatarUser :=
  { id := 1, avatar_type := 'a', avatar_set := [] }

/-- A user with two uploaded avatars both flagged primary (and a non-primary
gravatar candidate, since the avatar_type flag is 'a'). -/
def userC2 : AvatarUser :=
  { id := 1, avatar_type := 'a', avatar_set := [⟨1, true⟩, ⟨2, true⟩] }

/-- A user on the gravatar setting whose single uploaded avatar still carries
a stale primary flag, so two candidates are flagged primary. -/
def userC3 : AvatarUser :=
  { id := 1, avatar_type := 'g', avatar_set := [⟨7, true⟩] }

/-- An authenticated caller, not an administrator, whose id 2 differs from
the id 1 of the account being mutated. -/
def reqC4 : Request :=
  { is_authenticated := true, is_admin := false, is_admin_or_moderator := false
    user_id := 2, method_post := true, choice := none }

/-- The account targeted by reqC4: avatar_type 'a' with one primary uploaded
avatar. -/
def userC4 : AvatarUser :=
  { id := 1, avatar_type := 'a', avatar_set := [⟨1, true⟩] }

/-- An owner's POST request selecting uploaded avatar 2 as primary. -/
def reqC5 : Request :=
  { is_authenticated := true, is_admin := false, is_admin_or_moderator := false
    user_id := 1, method_post := true, choice := some 2 }

/-- The account targeted by reqC5: on the gravatar setting, with uploaded
avatars 1 (primary) and 2 (not primary). -/
def userC5 : AvatarUser :=
  { id := 1, avatar_type := 'g', avatar_set := [⟨1, true⟩, ⟨2, false⟩] }

/-- A user on the default setting with one non-primary uploaded avatar. -/
def userC6 : AvatarUser :=
  { id := 6, avatar_type := 'n', avatar_set := [⟨5, false⟩] }

/-- An owner's POST request for user 3. -/
def reqC7 : Request :=
  { is_authenticated := true, is_admin := false, is_admin_or_moderator := false
    user_id := 3, method_post := true, choice := none }

/-- The account targeted by reqC7: uploaded avatars X = 1 (primary) and
Y = 2 (not primary), avatar_type 'a'. -/
def userC7 : AvatarUser :=
  { id := 3, avatar_type := 'a', avatar_set := [⟨1, true⟩, ⟨2, false⟩] }

/-- An owner's POST request for user 4. -/
def reqC8 : Request :=
  { is_authenticated := true, is_admin := false, is_admin_or_moderator := false
    user_id := 4, method_post := true, choice := none }

/-- The account targeted by reqC8: on the gravatar setting with two uploaded
avatars both still flagged primary. -/
def userC8 : AvatarUser :=
  { id := 4, avatar_type := 'g', avatar_set := [⟨1, true⟩, ⟨2, true⟩] }

/-- The account for the frame-condition witness of delete: on the uploaded
setting with two uploaded avatars. -/
def userC10 : AvatarUser :=
  { id := 4, avatar_type := 'a', avatar_set := [⟨1, true⟩, ⟨2, false⟩] }

/-- A user on the gravatar setting with one non-primary uploaded avatar,
whose listing is already normalized. -/
def userC9 : AvatarUser :=
  { id := 1, avatar_type := 'g', avatar_set := [⟨1, false⟩] }

/-- Unfolding equation of normalizeAvatarData. -/
theorem normalizeAvatarData_eq (l : List AvatarDatum) :
    normalizeAvatarData l =
      if (l.filter (fun v => v.is_primary)).length > 1 then
        Except.error PyError.attributeError
      else
        match l.filter (fun v => v.is_primary) with
        | [] => Except.ok l
        | p :: _ => Except.ok (p :: l.erase p) := rfl

theorem foldl_append_eq_map {α β : Type} (f : α → β) :
    ∀ (l : List α) (l0 : List β),
      l.foldl (fun acc a => acc ++ [f a]) l0 = l0 ++ l.map f := by
  intro l
  induction l with
  | nil => intro l0; simp
  | cons a t ih => intro l0; simp [List.foldl_cons, ih]

/-- The candidate phase in closed form: the uploaded-avatar dictionaries in
storage order, then the gravatar dictionary, then the default one. -/
theorem buildAvatarData_eq (env : AvatarEnv) (user : AvatarUser) (avatar_size : Nat) :
    buildAvatarData env user avatar_size =
      user.avatar_set.map (uploadedDatum env avatar_size) ++
        [gravatarDatum env user avatar_size, defaultDatum env user avatar_size] := by
  simp [buildAvatarData, foldl_append_eq_map]

theorem countPrimary_cons (a : AvatarDatum) (t : List AvatarDatum) :
    countPrimary (a :: t) = (if a.is_primary then 1 else 0) + countPrimary t := by
  by_cases h : a.is_primary <;>
    simp [countPrimary, List.filter_cons, h, Nat.add_comm]

theorem countPrimary_erase (p : AvatarDatum) (l : List AvatarDatum)
    (hm : p ∈ l) (hp : p.is_primary = true) :
    countPrimary l = countPrimary (l.erase p) + 1 := by
  induction l with
  | nil => cases hm
  | cons a t ih =>
    by_cases hap : a = p
    · subst hap
      rw [List.erase_cons_head, countPrimary_cons, hp]
      simp [Nat.add_comm]
    · have hmt : p ∈ t := by
        cases hm with
        | head => exact absurd rfl hap
        | tail _ h => exact h
      rw [List.erase_cons_tail (by simp [hap]), countPrimary_cons, countPrimary_cons,
        ih hmt]
      omega

theorem normalize_of_count_zero (l : List AvatarDatum) (h : countPrimary l = 0) :
    normalizeAvatarData l = Except.ok l := by
  have hf : l.filter (fun v => v.is_primary) = [] := List.length_eq_zero.mp h
  rw [normalizeAvatarData_eq, hf]
  simp

theorem normalize_of_filter_eq_single (l : List AvatarDatum) (p : AvatarDatum)
    (h : l.filter (fun v => v.is_primary) = [p]) :
    normalizeAvatarData l = Except.ok (p :: l.erase p) := by
  rw [normalizeAvatarData_eq, h]
  simp

/-- Normalization of a listing with exactly one primary entry, given
positionally: the primary entry moves to the front, the rest keep their
relative order. -/
theorem normalize_single (l1 l2 : List AvatarDatum) (p : AvatarDatum)
    (h1 : ∀ x ∈ l1, x.is_primary = false) (hp : p.is_primary = true)
    (h2 : ∀ x ∈ l2, x.is_primary = false) :
    normalizeAvatarData (l1 ++ p :: l2) = Except.ok (p :: (l1 ++ l2)) := by
  have hf1 : l1.filter (fun v => v.is_primary) = [] :=
    List.filter_eq_nil_iff.mpr (fun a ha => by simp [h1 a ha])
  have hf2 : l2.filter (fun v => v.is_primary) = [] :=
    List.filter_eq_nil_iff.mpr (fun a ha => by simp [h2 a ha])
  have hf : (l1 ++ p :: l2).filter (fun v => v.is_primary) = [p] := by
    rw [List.filter_append, hf1, List.filter_cons_of_pos (by simpa using hp), hf2]
    simp
  have hnm : p ∉ l1 := by
    intro hmem
    have := h1 p hmem
    rw [hp] at this
    cases this
  rw [normalize_of_filter_eq_single _ _ hf, List.erase_append_right _ hnm,
    List.erase_cons_head]

/-- C1, counterexample: for the user state with avatar_type 'a' and no
uploaded avatars, get_avatar_data succeeds and its listing contains zero
entries with is_primary = true, refuting the claim that the listing always
contains exactly one primary entry at index 0. -/
theorem c1_counterexample :
    get_avatar_data envW userC1 128 =
      Except.ok ([gravatarDatum envW userC1 128, defaultDatum envW userC1 128], false) ∧
    countPrimary [gravatarDatum envW userC1 128, defaultDatum envW userC1 128] = 0 := by
  decide

/-- C1, amended: for every user state whose candidate listing carries at most
one primary-flagged entry, get_avatar_data succeeds, the returned listing
carries exactly as many primary entries as the candidates did (zero or one),
and when that number is one the primary entry sits at index 0. -/
theorem c1_amended_single_primary_first (env : AvatarEnv) (user : AvatarUser)
    (avatar_size : Nat)
    (h : countPrimary (buildAvatarData env user avatar_size) ≤ 1) :
    ∃ l, get_avatar_data env user avatar_size =
        Except.ok (l, user.avatar_set.length != 0) ∧
      countPrimary l = countPrimary (buildAvatarData env user avatar_size) ∧
      (countPrimary (buildAvatarData env user avatar_size) = 1 →
        ∃ p rest, l = p :: rest ∧ p.is_primary = true) := by
  rcases Nat.le_one_iff_eq_zero_or_eq_one.mp h with h0 | h1
  · refine ⟨buildAvatarData env user avatar_size, ?_, ?_, ?_⟩
    · simp [get_avatar_data, normalize_of_count_zero _ h0]
    · rfl
    · intro h1x
      rw [h0] at h1x
      cases h1x
  · obtain ⟨p, hp⟩ := List.length_eq_one.mp h1
    have hpp : p.is_primary = true := by
      have hmemf : p ∈ (buildAvatarData env user avatar_size).filter
          (fun v => v.is_primary) := by
        rw [hp]; exact List.mem_singleton.mpr rfl
      exact (List.mem_filter.mp hmemf).2
    refine ⟨p :: (buildAvatarData env user avatar_size).erase p, ?_, ?_, ?_⟩
    · simp [get_avatar_data, normalize_of_filter_eq_single _ _ hp]
    · have hmem : p ∈ buildAvatarData env user avatar_size := by
        have hmemf : p ∈ (buildAvatarData env user avatar_size).filter
            (fun v => v.is_primary) := by
          rw [hp]; exact List.mem_singleton.mpr rfl
        exact (List.mem_filter.mp hmemf).1
      have herase := countPrimary_erase p _ hmem hpp
      rw [countPrimary_cons, hpp]
      simp only [if_pos]
      omega
    · intro _
      exact ⟨p, _, rfl, hpp⟩

/-- C1, amended, witness at the state of userC3 restricted to a consistent
flag: avatar_type 'g' and one non-primary uploaded avatar gives one primary
candidate, so the listing has exactly one primary entry. -/
theorem c1_amended_witness :
    ∃ l, get_avatar_data envW userC9 9 =
        Except.ok (l, userC9.avatar_set.length != 0) ∧
      countPrimary l = countPrimary (buildAvatarData envW userC9 9) ∧
      (countPrimary (buildAvatarData envW userC9 9) = 1 →
        ∃ p rest, l = p :: rest ∧ p.is_primary = true) :=
  c1_amended_single_primary_first envW userC9 9 (by decide)

/-- C2: on the candidate listing of two uploaded avatars both flagged primary
plus a non-primary gravatar entry (and the non-primary default entry), the
normalization of get_avatar_data does not re-mark the first uploaded avatar:
it raises AttributeError, because the tie-break code evaluates v.type on a
dictionary v. -/
theorem c2_tie_break_raises :
    buildAvatarData envW userC2 128 =
      [uploadedDatum envW 128 ⟨1, true⟩, uploadedDatum envW 128 ⟨2, true⟩,
       gravatarDatum envW userC2 128, defaultDatum envW userC2 128] ∧
    (uploadedDatum envW 128 (⟨1, true⟩ : UploadedAvatar)).is_primary = true ∧
    (uploadedDatum envW 128 (⟨2, true⟩ : UploadedAvatar)).is_primary = true ∧
    (gravatarDatum envW userC2 128).is_primary = false ∧
    normalizeAvatarData (buildAvatarData envW userC2 128) =
      Except.error PyError.attributeError := by
  decide

/-- C3: the normalization inside get_avatar_data is not total; on the user
state with avatar_type 'g' and one uploaded avatar still flagged primary
(two primary candidates) it raises AttributeError instead of returning. -/
theorem c3_normalization_raises :
    countPrimary (buildAvatarData envW userC3 128) = 2 ∧
    get_avatar_data envW userC3 128 = Except.error PyError.attributeError := by
  decide

/-- C4: an authenticated caller that is neither the owning user nor an
administrator is not stopped by admin_or_owner_required: the decorator
delegates to login_required, which runs the view for any authenticated
caller, so the mutation is applied — here enable_gravatar changes the state
of user 1 on a request from user 2.  The caller is redirected to the
listing, but the claim that no avatar state changes is refuted. -/
theorem c4_unprivileged_caller_mutates :
    reqC4.is_authenticated = true ∧ reqC4.is_admin = false ∧
    reqC4.user_id ≠ userC4.id ∧
    (admin_or_owner_required enable_gravatar_view reqC4 userC4.id userC4).1 ≠ userC4 ∧
    (admin_or_owner_required enable_gravatar_view reqC4 userC4.id userC4).1.avatar_type = 'g' ∧
    (admin_or_owner_required enable_gravatar_view reqC4 userC4.id userC4).2 =
      HttpResult.redirectShowList userC4.id := by
  decide

/-- C5: a successful set_primary (POST with a choice naming one of the user's
own uploaded avatars) leaves the user's avatar_type at 'a' (uploaded), makes
exactly the avatars with the chosen id primary and every other uploaded
avatar non-primary, and preserves the set of uploaded-avatar ids. -/
theorem c5_select_primary (request : Request) (user : AvatarUser)
    (user_id c : Nat) (hpost : request.method_post = true)
    (hchoice : request.choice = some c)
    (hmem : ∃ a, a ∈ user.avatar_set ∧ a.id = c) :
    (set_primary_view request user_id user).1.avatar_type = 'a' ∧
    (∀ a, a ∈ (set_primary_view request user_id user).1.avatar_set →
      a.primary = decide (a.id = c)) ∧
    (set_primary_view request user_id user).1.avatar_set.map (fun a => a.id) =
      user.avatar_set.map (fun a => a.id) := by
  have hany : user.avatar_set.any (fun a => a.id == c) = true := by
    rcases hmem with ⟨a, ha, hid⟩
    exact List.any_eq_true.mpr ⟨a, ha, by simp [hid]⟩
  refine ⟨?_, ?_, ?_⟩
  · simp [set_primary_view, hpost, hchoice, hany, saveAvatarAsPrimary]
  · intro a ha
    simp only [set_primary_view, hpost, hchoice, hany, if_pos] at ha
    simp only [saveAvatarAsPrimary, List.mem_map] at ha
    obtain ⟨x, hx, rfl⟩ := ha
    by_cases hxc : x.id = c
    · simp [hxc]
    · simp [hxc]
  · simp only [set_primary_view, hpost, hchoice, hany, if_pos]
    simp [saveAvatarAsPrimary, List.map_map, Function.comp, apply_ite]

/-- C5, witness: the owner posts choice 2 for a user with uploaded avatars 1
(primary) and 2; afterwards avatar_type is 'a', avatar 2 is the only primary
one and the id set is unchanged. -/
theorem c5_witness :
    (set_primary_view reqC5 1 userC5).1.avatar_type = 'a' ∧
    (∀ a, a ∈ (set_primary_view reqC5 1 userC5).1.avatar_set →
      a.primary = decide (a.id = 2)) ∧
    (set_primary_view reqC5 1 userC5).1.avatar_set.map (fun a => a.id) =
      userC5.avatar_set.map (fun a => a.id) :=
  c5_select_primary reqC5 userC5 1 2 rfl rfl ⟨⟨2, false⟩, by decide, rfl⟩

/-- C6: the candidate listing is one entry per uploaded avatar in storage
order carrying that avatar's id, url and primary flag, then exactly one
gravatar entry primary exactly when avatar_type is 'g', then exactly one
default entry primary exactly when avatar_type is 'n'; and whenever
get_avatar_data returns, its boolean is true exactly when the user has at
least one uploaded avatar. -/
theorem c6_candidate_structure (env : AvatarEnv) (user : AvatarUser) (avatar_size : Nat) :
    buildAvatarData env user avatar_size =
      user.avatar_set.map (uploadedDatum env avatar_size) ++
        [gravatarDatum env user avatar_size, defaultDatum env user avatar_size] ∧
    (∀ a : UploadedAvatar,
      (uploadedDatum env avatar_size a).id = some a.id ∧
      (uploadedDatum env avatar_size a).avatar_type = AvatarKind.uploaded_avatar ∧
      (uploadedDatum env avatar_size a).url = env.avatarUrl a.id avatar_size ∧
      (uploadedDatum env avatar_size a).is_primary = a.primary) ∧
    (gravatarDatum env user avatar_size).is_primary = (user.avatar_type == 'g') ∧
    ((user.avatar_type == 'g') = true ↔ user.avatar_type = 'g') ∧
    (defaultDatum env user avatar_size).is_primary = (user.avatar_type == 'n') ∧
    ((user.avatar_type == 'n') = true ↔ user.avatar_type = 'n') ∧
    (∀ l b, get_avatar_data env user avatar_size = Except.ok (l, b) →
      (b = true ↔ user.avatar_set ≠ [])) := by
  refine ⟨buildAvatarData_eq env user avatar_size, fun a => ⟨rfl, rfl, rfl, rfl⟩,
    rfl, beq_iff_eq, rfl, beq_iff_eq, ?_⟩
  intro l b h
  cases hn : normalizeAvatarData (buildAvatarData env user avatar_size) with
  | error e => simp [get_avatar_data, hn] at h
  | ok l2 =>
    simp [get_avatar_data, hn] at h
    rw [← h.2]
    simp [bne_iff_ne, Ne, List.length_eq_zero]

/-- C6, witness at a user with one uploaded avatar on the default setting:
the boolean returned alongside the listing is true since the avatar set is
non-empty. -/
theorem c6_witness : (true = true ↔ userC6.avatar_set ≠ []) :=
  (c6_candidate_structure envW userC6 7).2.2.2.2.2.2
    [defaultDatum envW userC6 7, uploadedDatum envW 7 ⟨5, false⟩, gravatarDatum envW userC6 7]
    true (by decide)

/-- C7: a successful enable_gravatar sets the user's avatar_type to 'g' and
clears the primary flag on every uploaded avatar; in the scenario of two
uploaded avatars X (primary) and Y (not primary), the resulting listing is
the gravatar entry first and primary, then X and Y non-primary, then the
default entry. -/
theorem c7_enable_gravatar (request : Request) (user : AvatarUser) (user_id : Nat)
    (hpost : request.method_post = true) :
    (enable_gravatar_view request user_id user).1.avatar_type = 'g' ∧
    (∀ a, a ∈ (enable_gravatar_view request user_id user).1.avatar_set →
      a.primary = false) ∧
    (∀ (env : AvatarEnv) (avatar_size x y : Nat),
      user.avatar_set = [⟨x, true⟩, ⟨y, false⟩] →
      get_avatar_data env ((enable_gravatar_view request user_id user).1) avatar_size =
        Except.ok
          ([gravatarDatum env ((enable_gravatar_view request user_id user).1) avatar_size,
            uploadedDatum env avatar_size ⟨x, false⟩,
            uploadedDatum env avatar_size ⟨y, false⟩,
            defaultDatum env ((enable_gravatar_view request user_id user).1) avatar_size],
           true)) := by
  refine ⟨?_, ?_, ?_⟩
  · simp [enable_gravatar_view, hpost]
  · intro a ha
    simp only [enable_gravatar_view, hpost, if_pos] at ha
    simp only [List.mem_map] at ha
    obtain ⟨x, hx, rfl⟩ := ha
    rfl
  · intro env avatar_size x y hset
    have hst : (enable_gravatar_view request user_id user).1 =
        { user with avatar_type := 'g', avatar_set := [⟨x, false⟩, ⟨y, false⟩] } := by
      simp [enable_gravatar_view, hpost, hset]
    rw [hst]
    have hnorm :
        normalizeAvatarData (buildAvatarData env
          { user with avatar_type := 'g', avatar_set := [⟨x, false⟩, ⟨y, false⟩] }
          avatar_size) =
        Except.ok
          [gravatarDatum env
             { user with avatar_type := 'g', avatar_set := [⟨x, false⟩, ⟨y, false⟩] }
             avatar_size,
           uploadedDatum env avatar_size ⟨x, false⟩,
           uploadedDatum env avatar_size ⟨y, false⟩,
           defaultDatum env
             { user with avatar_type := 'g', avatar_set := [⟨x, false⟩, ⟨y, false⟩] }
             avatar_size] := by
      rw [buildAvatarData_eq]
      have hone := normalize_single
        [uploadedDatum env avatar_size ⟨x, false⟩, uploadedDatum env avatar_size ⟨y, false⟩]
        [defaultDatum env
          { user with avatar_type := 'g', avatar_set := [⟨x, false⟩, ⟨y, false⟩] }
          avatar_size]
        (gravatarDatum env
          { user with avatar_type := 'g', avatar_set := [⟨x, false⟩, ⟨y, false⟩] }
          avatar_size)
        (by intro z hz
            simp only [List.mem_cons, List.mem_singleton, List.not_mem_nil] at hz
            rcases hz with h | h | h
            · subst h; rfl
            · subst h; rfl
            · cases h)
        rfl
        (by intro z hz
            simp only [List.mem_singleton] at hz
            subst hz; rfl)
      simpa using hone
    simp [get_avatar_data, hnorm]

/-- C7, witness: the owner posts enable_gravatar for user 3 with uploaded
avatars 1 (primary) and 2 (not primary); avatar_type becomes 'g' and the
listing is gravatar first and primary. -/
theorem c7_witness :
    (enable_gravatar_view reqC7 3 userC7).1.avatar_type = 'g' ∧
    get_avatar_data envW ((enable_gravatar_view reqC7 3 userC7).1) 9 =
      Except.ok
        ([gravatarDatum envW ((enable_gravatar_view reqC7 3 userC7).1) 9,
          uploadedDatum envW 9 ⟨1, false⟩,
          uploadedDatum envW 9 ⟨2, false⟩,
          defaultDatum envW ((enable_gravatar_view reqC7 3 userC7).1) 9],
         true) := by
  obtain ⟨h1, _, h3⟩ := c7_enable_gravatar reqC7 userC7 3 rfl
  exact ⟨h1, h3 envW 9 1 2 rfl⟩

/-- C8: an authorized delete captures the owner's avatar_type before the row
is removed, and the primary flags of the remaining uploaded avatars are
cleared exactly when the captured flag was 'g'; for any other captured flag
the remaining rows keep their flags unchanged. -/
theorem c8_delete_policy (hook : Char → Char) (request : Request)
    (avatar_id : Nat) (user : AvatarUser)
    (hauth : (request.method_post && request.is_authenticated &&
      (request.is_admin_or_moderator || user.id == request.user_id)) = true) :
    (user.avatar_type = 'g' →
      (delete_view hook request avatar_id user).1.avatar_set =
        (user.avatar_set.filter (fun a => a.id != avatar_id)).map
          (fun a => { a with primary := false })) ∧
    (user.avatar_type ≠ 'g' →
      (delete_view hook request avatar_id user).1.avatar_set =
        user.avatar_set.filter (fun a => a.id != avatar_id)) := by
  constructor
  · intro hg
    simp [delete_view, hauth, hg]
  · intro hg
    simp [delete_view, hauth, beq_iff_eq, hg]

/-- C8, witness: owner deletes avatar 1 of a user on the gravatar setting
with avatars 1 and 2 both flagged primary; the hook stands for signal
handlers rewriting avatar_type to 'n' during the delete. -/
theorem c8_witness :
    (userC8.avatar_type = 'g' →
      (delete_view (fun _ => 'n') reqC8 1 userC8).1.avatar_set =
        (userC8.avatar_set.filter (fun a => a.id != 1)).map
          (fun a => { a with primary := false })) ∧
    (userC8.avatar_type ≠ 'g' →
      (delete_view (fun _ => 'n') reqC8 1 userC8).1.avatar_set =
        userC8.avatar_set.filter (fun a => a.id != 1)) :=
  c8_delete_policy (fun _ => 'n') reqC8 1 userC8 (by decide)

/-- C9: normalization is idempotent on its own outputs: whenever it returns a
listing, running it again on that listing returns the identical listing. -/
theorem c9_normalize_idempotent (l l2 : List AvatarDatum)
    (h : normalizeAvatarData l = Except.ok l2) :
    normalizeAvatarData l2 = Except.ok l2 := by
  by_cases hgt : (l.filter (fun v => v.is_primary)).length > 1
  · rw [normalizeAvatarData_eq, if_pos hgt] at h
    cases h
  · cases hf : l.filter (fun v => v.is_primary) with
    | nil =>
      rw [normalizeAvatarData_eq, hf] at h
      simp at h
      subst h
      exact normalize_of_count_zero l (by simp only [countPrimary, hf, List.length_nil])
    | cons p rest =>
      have hrest : rest = [] := by
        rw [hf] at hgt
        simp only [List.length_cons, gt_iff_lt, not_lt] at hgt
        exact List.length_eq_zero.mp (by omega)
      subst hrest
      rw [normalize_of_filter_eq_single l p hf] at h
      have hl2 : l2 = p :: l.erase p := by
        cases h
        rfl
      subst hl2
      have hpf : p ∈ l.filter (fun v => v.is_primary) := by
        rw [hf]
        exact List.mem_singleton.mpr rfl
      have hpmem : p ∈ l := (List.mem_filter.mp hpf).1
      have hpp : p.is_primary = true := (List.mem_filter.mp hpf).2
      have herase : (l.erase p).filter (fun v => v.is_primary) = [] := by
        have h1 := countPrimary_erase p l hpmem hpp
        simp only [countPrimary, hf, List.length_singleton] at h1
        exact List.length_eq_zero.mp (by omega)
      have hf2 : (p :: l.erase p).filter (fun v => v.is_primary) = [p] := by
        rw [List.filter_cons_of_pos (by simpa using hpp), herase]
      rw [normalize_of_filter_eq_single _ _ hf2, List.erase_cons_head]

/-- C9, witness: the normalized listing of a user on the gravatar setting
with one non-primary uploaded avatar is a fixed point of normalization. -/
theorem c9_witness :
    normalizeAvatarData
      [gravatarDatum envW userC9 9, uploadedDatum envW 9 ⟨1, false⟩,
       defaultDatum envW userC9 9] =
      Except.ok
        [gravatarDatum envW userC9 9, uploadedDatum envW 9 ⟨1, false⟩,
         defaultDatum envW userC9 9] :=
  c9_normalize_idempotent (buildAvatarData envW userC9 9) _ (by decide)

/-- C10: an authorized delete leaves the owner's avatar_type unchanged, for
every possible behavior of the signal handlers fired by the row deletion
(the hook): the handler captures the flag before deleting and writes the
captured value back. -/
theorem c10_delete_preserves_avatar_type (hook : Char → Char) (request : Request)
    (avatar_id : Nat) (user : AvatarUser)
    (hauth : (request.method_post && request.is_authenticated &&
      (request.is_admin_or_moderator || user.id == request.user_id)) = true) :
    (delete_view hook request avatar_id user).1.avatar_type = user.avatar_type := by
  by_cases hg : user.avatar_type = 'g' <;>
    simp [delete_view, hauth, beq_iff_eq, hg]

/-- C10, witness: owner deletes avatar 1 of a user on the uploaded setting
while the hook rewrites the flag to 'g' during the delete; the final
avatar_type is still the original 'a'. -/
theorem c10_witness :
    (delete_view (fun _ => 'g') reqC8 1 userC10).1.avatar_type = userC10.avatar_type :=
  c10_delete_preserves_avatar_type (fun _ => 'g') reqC8 1 userC10 (by decide)
